import Mathlib

/-!
Shallow embedding of the indicator-instance store of KLineChart
(src/store/IndicatorStore.ts) and proofs about its operations.

The store keeps a two-level table `paneId → name → instance`, a template
registry `name → factory`, and offers: `addInstance`, `calcInstance`,
`override`, `setSeriesPrecision`, plus the private helper
`_overrideInstance` (here `overrideInstance`).

JavaScript `Map` objects are modelled as insertion-ordered association
lists (`set` on a present key replaces in place, on an absent key appends;
iteration follows insertion order), asynchronous calculations as explicit
state passing with a success flag, and a thrown error as `Except.error`.

The `IndicatorTemplate` instance class (template/indicator/Indicator.ts)
is not part of the analysed sources; its conditional setters and its
`calcIndicator` method are modelled from the specification, as marked on
each definition.
-/

/-- Insertion-ordered association list standing in for a JavaScript Map. -/
abbrev SMap (α : Type) := List (String × α)

/-- Map.get: first binding of the key, if any. -/
def alGet {α : Type} (m : SMap α) (k : String) : Option α :=
  match m with
  | [] => none
  | (k', v) :: rest => if k' = k then some v else alGet rest k

/-- Map.set: replace in place when the key is present, append otherwise. -/
def alSet {α : Type} (m : SMap α) (k : String) (v : α) : SMap α :=
  match m with
  | [] => [(k, v)]
  | (k', v') :: rest => if k' = k then (k', v) :: rest else (k', v') :: alSet rest k v

/-- Map over the values of an association list, keeping keys and order. -/
def mapVals {α β : Type} (f : α → β) : SMap α → SMap β
  | [] => []
  | (k, v) :: rest => (k, f v) :: mapVals f rest

/-- Modelled from the spec: the `series` classification of an indicator
instance (`PRICE`, `VOLUME`, or a generic/other category), declared in
template/indicator/Indicator.ts which is outside the analysed sources. -/
inductive IndicatorSeries where
  | PRICE
  | VOLUME
  | NORMAL
deriving DecidableEq, Repr

/-- Modelled from the spec: the mutable state of an indicator instance
(class IndicatorTemplate of template/indicator/Indicator.ts, outside the
analysed sources). Scalar stand-ins: plot descriptors, style objects and
the function capabilities (`regeneratePlots`, `createToolTipDataSource`,
`draw`, the calculation capability — field `calcFn` here, `calc` in the
source, a Lean keyword) are identified by numeric ids; the data list and
the result are integer sequences. `result` is the derived output. -/
structure IndicatorTemplate where
  shortName : String
  series : IndicatorSeries
  calcParams : List Int
  precision : Nat
  plots : List Nat
  minValue : Option Int
  maxValue : Option Int
  shouldOhlc : Bool
  shouldFormatBigNumber : Bool
  styles : Nat
  extendData : Option Int
  regeneratePlots : Nat
  createToolTipDataSource : Nat
  draw : Nat
  calcFn : Nat
  result : List Int
deriving DecidableEq, Repr

/-- An override patch (the `Indicator` configuration object): every field
other than `name` is optional. For the nullable fields a present value is
itself an `Option` (`some none` renders an explicit `null`). -/
structure Indicator where
  name : String
  shortName : Option String
  series : Option IndicatorSeries
  calcParams : Option (List Int)
  precision : Option Nat
  plots : Option (List Nat)
  minValue : Option (Option Int)
  maxValue : Option (Option Int)
  shouldOhlc : Option Bool
  shouldFormatBigNumber : Option Bool
  styles : Option (Option Nat)
  extendData : Option (Option Int)
  regeneratePlots : Option (Option Nat)
  createToolTipDataSource : Option (Option Nat)
  draw : Option (Option Nat)
  calcFn : Option Nat
deriving DecidableEq, Repr

/-- The patch that carries only a name and leaves every field absent. -/
def Indicator.onlyName (n : String) : Indicator :=
  ⟨n, none, none, none, none, none, none, none, none, none, none, none, none, none, none, none⟩

/-- Modelled from the spec: each conditional setter performs its own
equality check and reports whether it actually altered state. -/
def setShortName (i : IndicatorTemplate) (v : String) : IndicatorTemplate × Bool :=
  if i.shortName = v then (i, false) else ({ i with shortName := v }, true)

/-- Modelled from the spec: conditional setter for `series`. -/
def setSeries (i : IndicatorTemplate) (v : IndicatorSeries) : IndicatorTemplate × Bool :=
  if i.series = v then (i, false) else ({ i with series := v }, true)

/-- Modelled from the spec: conditional setter for `calcParams`. -/
def setCalcParams (i : IndicatorTemplate) (v : List Int) : IndicatorTemplate × Bool :=
  if i.calcParams = v then (i, false) else ({ i with calcParams := v }, true)

/-- Modelled from the spec: conditional setter for `plots`. -/
def setPlots (i : IndicatorTemplate) (v : List Nat) : IndicatorTemplate × Bool :=
  if i.plots = v then (i, false) else ({ i with plots := v }, true)

/-- Modelled from the spec: conditional setter for `minValue`. -/
def setMinValue (i : IndicatorTemplate) (v : Option Int) : IndicatorTemplate × Bool :=
  if i.minValue = v then (i, false) else ({ i with minValue := v }, true)

/-- Modelled from the spec: conditional setter for `precision`; the second
argument is the internally-forced flag used by the series-precision
propagator (it bypasses user-override bookkeeping, which this model does
not track, so it does not alter the observable behaviour here). -/
def setPrecision (i : IndicatorTemplate) (v : Nat) (_forced : Bool) : IndicatorTemplate × Bool :=
  if i.precision = v then (i, false) else ({ i with precision := v }, true)

/-- Modelled from the spec: conditional setter for `shouldOhlc`. -/
def setShouldOhlc (i : IndicatorTemplate) (v : Bool) : IndicatorTemplate × Bool :=
  if i.shouldOhlc = v then (i, false) else ({ i with shouldOhlc := v }, true)

/-- Modelled from the spec: conditional setter for `shouldFormatBigNumber`. -/
def setShouldFormatBigNumber (i : IndicatorTemplate) (v : Bool) : IndicatorTemplate × Bool :=
  if i.shouldFormatBigNumber = v then (i, false) else ({ i with shouldFormatBigNumber := v }, true)

/-- Modelled from the spec: conditional setter for `styles`. -/
def setStyles (i : IndicatorTemplate) (v : Nat) : IndicatorTemplate × Bool :=
  if i.styles = v then (i, false) else ({ i with styles := v }, true)

/-- Modelled from the spec: conditional setter for `extendData`. -/
def setExtendData (i : IndicatorTemplate) (v : Option Int) : IndicatorTemplate × Bool :=
  if i.extendData = v then (i, false) else ({ i with extendData := v }, true)

/-- Modelled from the spec: conditional setter for the `regeneratePlots`
capability. -/
def setRegeneratePlots (i : IndicatorTemplate) (v : Nat) : IndicatorTemplate × Bool :=
  if i.regeneratePlots = v then (i, false) else ({ i with regeneratePlots := v }, true)

/-- Modelled from the spec: conditional setter for the
`createToolTipDataSource` capability. -/
def setCreateToolTipDataSource (i : IndicatorTemplate) (v : Nat) : IndicatorTemplate × Bool :=
  if i.createToolTipDataSource = v then (i, false) else ({ i with createToolTipDataSource := v }, true)

/-- Modelled from the spec: conditional setter for the `draw` capability. -/
def setDraw (i : IndicatorTemplate) (v : Nat) : IndicatorTemplate × Bool :=
  if i.draw = v then (i, false) else ({ i with draw := v }, true)

/-- Faithful translation of the private `_overrideInstance` of
IndicatorStore.ts (lines 31-86): each field present in the patch runs its
conditional setter in source order; `overrideSuccess` is the OR of the
setter reports, `calcParamsSuccess` is set only by the `calcParams`
setter. The `maxValue` branch calls `setMinValue` exactly as line 55 of
the source does; the nullable capability fields and `styles` skip an
explicit null; `calc` is overwritten unconditionally without counting
toward either flag. Returns (new instance, overrideSuccess,
calcParamsSuccess). -/
def overrideInstance (inst : IndicatorTemplate) (ind : Indicator) :
    IndicatorTemplate × Bool × Bool :=
  let s1 : IndicatorTemplate × Bool :=
    match ind.shortName with
    | none => (inst, false)
    | some v => setShortName inst v
  let s2 : IndicatorTemplate × Bool :=
    match ind.series with
    | none => s1
    | some v => let r := setSeries s1.1 v; (r.1, s1.2 || r.2)
  let s3 : (IndicatorTemplate × Bool) × Bool :=
    match ind.calcParams with
    | none => (s2, false)
    | some v => let r := setCalcParams s2.1 v; ((r.1, s2.2 || r.2), r.2)
  let s4 : IndicatorTemplate × Bool :=
    match ind.plots with
    | none => s3.1
    | some v => let r := setPlots s3.1.1 v; (r.1, s3.1.2 || r.2)
  let s5 : IndicatorTemplate × Bool :=
    match ind.minValue with
    | none => s4
    | some v => let r := setMinValue s4.1 v; (r.1, s4.2 || r.2)
  let s6 : IndicatorTemplate × Bool :=
    match ind.maxValue with
    | none => s5
    | some v => let r := setMinValue s5.1 v; (r.1, s5.2 || r.2)
  let s7 : IndicatorTemplate × Bool :=
    match ind.precision with
    | none => s6
    | some v => let r := setPrecision s6.1 v false; (r.1, s6.2 || r.2)
  let s8 : IndicatorTemplate × Bool :=
    match ind.shouldOhlc with
    | none => s7
    | some v => let r := setShouldOhlc s7.1 v; (r.1, s7.2 || r.2)
  let s9 : IndicatorTemplate × Bool :=
    match ind.shouldFormatBigNumber with
    | none => s8
    | some v => let r := setShouldFormatBigNumber s8.1 v; (r.1, s8.2 || r.2)
  let s10 : IndicatorTemplate × Bool :=
    match ind.styles with
    | some (some v) => let r := setStyles s9.1 v; (r.1, s9.2 || r.2)
    | _ => s9
  let s11 : IndicatorTemplate × Bool :=
    match ind.extendData with
    | none => s10
    | some v => let r := setExtendData s10.1 v; (r.1, s10.2 || r.2)
  let s12 : IndicatorTemplate × Bool :=
    match ind.regeneratePlots with
    | some (some v) => let r := setRegeneratePlots s11.1 v; (r.1, s11.2 || r.2)
    | _ => s11
  let s13 : IndicatorTemplate × Bool :=
    match ind.createToolTipDataSource with
    | some (some v) => let r := setCreateToolTipDataSource s12.1 v; (r.1, s12.2 || r.2)
    | _ => s12
  let s14 : IndicatorTemplate × Bool :=
    match ind.draw with
    | some (some v) => let r := setDraw s13.1 v; (r.1, s13.2 || r.2)
    | _ => s13
  let final : IndicatorTemplate :=
    match ind.calcFn with
    | none => s14.1
    | some c => { s14.1 with calcFn := c }
  (final, s14.2, s3.2)

/-- Semantics of the calculation capabilities: a capability id and the
chart's data list yield either a computed result or a failure. -/
abbrev CalcSem := Nat → List Int → Option (List Int)

/-- Modelled from the spec: `calcIndicator` of the IndicatorTemplate class
(outside the analysed sources) runs the `calc` capability over the data
list; on success it stores the produced result on the instance and
resolves `true`; on failure the instance retains its previous result and
it resolves `false` (spec 4.4 recompute contract and 7 CalcFailure). -/
def calcIndicator (sem : CalcSem) (inst : IndicatorTemplate) (data : List Int) :
    IndicatorTemplate × Bool :=
  match sem inst.calcFn data with
  | some r => ({ inst with result := r }, true)
  | none => (inst, false)

/-- State of an IndicatorStore: the template registry (a factory is
modelled by the default instance it constructs) and the two-level
instance table. The chart store collaborator is reduced to the data list
its `getDataList` returns, passed explicitly to each operation. -/
structure IndicatorStore where
  templates : SMap IndicatorTemplate
  instances : SMap (SMap IndicatorTemplate)
deriving DecidableEq, Repr

/-- Faithful translation of `addInstance` (IndicatorStore.ts lines
95-113). The early guard is the source's line 98 condition
`paneInstances?.has(name) !== undefined`, which is true exactly when the
pane has an entry (optional chaining yields `undefined` only when
`paneInstances` is absent; any boolean differs from `undefined`). When the
guard passes the pane entry is absent, so the freshly created pane map is
installed first (line 103); a missing template then makes
`new Template()` throw (`Except.error`), leaving that empty pane entry
behind. Otherwise the fresh default instance is patched, the non-stack
clear runs on the (necessarily empty) fresh map, the instance is inserted
and computed; the computation's flag is returned. -/
def addInstance (sem : CalcSem) (store : IndicatorStore) (paneId : String)
    (indicator : Indicator) (isStack : Bool) (data : List Int) :
    IndicatorStore × Except Unit Bool :=
  let name := indicator.name
  if (alGet store.instances paneId).isSome then
    (store, Except.ok false)
  else
    match alGet store.templates name with
    | none =>
        ({ store with instances := alSet store.instances paneId [] }, Except.error ())
    | some tmpl =>
        let inst := (overrideInstance tmpl indicator).1
        let paneInstances : SMap IndicatorTemplate := []
        let paneInstances := if isStack then paneInstances else []
        let r := calcIndicator sem inst data
        ({ store with
            instances := alSet store.instances paneId (alSet paneInstances name r.1) },
         Except.ok r.2)

/-- Recompute every instance of one pane in iteration order (the inner
`forEach` of `calcInstance`'s no-name branch). -/
def calcPane (sem : CalcSem) (data : List Int) :
    SMap IndicatorTemplate → SMap IndicatorTemplate × List Bool
  | [] => ([], [])
  | (n, inst) :: rest =>
    let r := calcIndicator sem inst data
    let t := calcPane sem data rest
    ((n, r.1) :: t.1, r.2 :: t.2)

/-- Recompute every instance of every pane in iteration order (the outer
`forEach` of `calcInstance`'s no-name branch). -/
def calcPanes (sem : CalcSem) (data : List Int) :
    SMap (SMap IndicatorTemplate) → SMap (SMap IndicatorTemplate) × List Bool
  | [] => ([], [])
  | (p, m) :: rest =>
    let r := calcPane sem data m
    let t := calcPanes sem data rest
    ((p, r.1) :: t.1, r.2 ++ t.2)

/-- Recompute, in each pane, the instance keyed `name` when present (the
`forEach` of `calcInstance`'s name-only branch). -/
def calcNamePanes (sem : CalcSem) (data : List Int) (name : String) :
    SMap (SMap IndicatorTemplate) → SMap (SMap IndicatorTemplate) × List Bool
  | [] => ([], [])
  | (p, m) :: rest =>
    let r : SMap IndicatorTemplate × List Bool :=
      match alGet m name with
      | some inst =>
        let c := calcIndicator sem inst data
        (alSet m name c.1, [c.2])
      | none => (m, [])
    let t := calcNamePanes sem data name rest
    ((p, r.1) :: t.1, r.2 ++ t.2)

/-- Faithful translation of `calcInstance` (IndicatorStore.ts lines
164-189): with a name and a pane id it recomputes the single matching
instance if present; with only a name, the matching instance of every
pane; with no name — whatever the pane id argument — every instance of
every pane. Returns the updated store and the success flags of the
launched computations in selection order. -/
def calcInstance (sem : CalcSem) (store : IndicatorStore)
    (name? : Option String) (paneId? : Option String) (data : List Int) :
    IndicatorStore × List Bool :=
  match name? with
  | some name =>
    match paneId? with
    | some paneId =>
      match alGet store.instances paneId with
      | some m =>
        match alGet m name with
        | some inst =>
          let r := calcIndicator sem inst data
          ({ store with instances := alSet store.instances paneId (alSet m name r.1) }, [r.2])
        | none => (store, [])
      | none => (store, [])
    | none =>
      let r := calcNamePanes sem data name store.instances
      ({ store with instances := r.1 }, r.2)
  | none =>
    let r := calcPanes sem data store.instances
    ({ store with instances := r.1 }, r.2)

/-- Source line 215-220 body of `setSeriesPrecision`'s inner `forEach`:
two independent conditionals keyed on the classification. -/
def updatePrecision (prec : Nat × Nat) (inst : IndicatorTemplate) : IndicatorTemplate :=
  let i1 := if inst.series = IndicatorSeries.PRICE then (setPrecision inst prec.1 true).1 else inst
  if i1.series = IndicatorSeries.VOLUME then (setPrecision i1 prec.2 true).1 else i1

/-- Faithful translation of `setSeriesPrecision` (IndicatorStore.ts lines
212-223): visits every instance of every pane; the `Precision` argument
is the pair (price, volume). No computation is launched. -/
def setSeriesPrecision (store : IndicatorStore) (prec : Nat × Nat) : IndicatorStore :=
  { store with instances := mapVals (mapVals (updatePrecision prec)) store.instances }

/-- One pane's step of `override` (the `forEach` body, IndicatorStore.ts
lines 242-250): when the pane holds an instance keyed by the patch's
name, apply `_overrideInstance`; only when `calcParamsSuccess` is true is
a recomputation scheduled and its flag contributed. -/
def overridePane (sem : CalcSem) (data : List Int) (ind : Indicator)
    (m : SMap IndicatorTemplate) : SMap IndicatorTemplate × List Bool :=
  match alGet m ind.name with
  | none => (m, [])
  | some inst =>
    let r := overrideInstance inst ind
    if r.2.2 then
      let c := calcIndicator sem r.1 data
      (alSet m ind.name c.1, [c.2])
    else
      (alSet m ind.name r.1, [])

/-- `override`'s traversal over all panes in iteration order. -/
def overrideAllPanes (sem : CalcSem) (data : List Int) (ind : Indicator) :
    SMap (SMap IndicatorTemplate) → SMap (SMap IndicatorTemplate) × List Bool
  | [] => ([], [])
  | (p, m) :: rest =>
    let r := overridePane sem data ind m
    let t := overrideAllPanes sem data ind rest
    ((p, r.1) :: t.1, r.2 ++ t.2)

/-- Faithful translation of `override` (IndicatorStore.ts lines 231-252):
with a pane id, only that pane (when present) is visited; without one,
every pane. Each visited pane holding the named instance gets the patch
applied; recomputations are scheduled only for instances whose
`calcParams` changed, and the returned flags are theirs, in iteration
order. -/
def override (sem : CalcSem) (store : IndicatorStore) (ind : Indicator)
    (paneId? : Option String) (data : List Int) : IndicatorStore × List Bool :=
  match paneId? with
  | some p =>
    match alGet store.instances p with
    | some m =>
      let r := overridePane sem data ind m
      ({ store with instances := alSet store.instances p r.1 }, r.2)
    | none => (store, [])
  | none =>
    let r := overrideAllPanes sem data ind store.instances
    ({ store with instances := r.1 }, r.2)

/-- Two-level lookup in the instance table. -/
def alGet2 (ps : SMap (SMap IndicatorTemplate)) (p n : String) : Option IndicatorTemplate :=
  (alGet ps p).bind (fun m => alGet m n)

/-- Total number of instances across all panes. -/
def instanceCount : SMap (SMap IndicatorTemplate) → Nat
  | [] => 0
  | (_, m) :: rest => m.length + instanceCount rest

/-- Number of instances, across the given panes, that match the patch's
name and whose `calcParams` setter would report a change — exactly the
instances `override` schedules for recomputation. -/
def recomputedCount (ind : Indicator) : SMap (SMap IndicatorTemplate) → Nat
  | [] => 0
  | (_, m) :: rest =>
    (match alGet m ind.name with
     | some inst => if (overrideInstance inst ind).2.2 then 1 else 0
     | none => 0) + recomputedCount ind rest

/-- A store holding a single pane with a single named instance. -/
def singlePaneStore (tmps : SMap IndicatorTemplate) (p n : String)
    (i : IndicatorTemplate) : IndicatorStore :=
  ⟨tmps, [(p, [(n, i)])]⟩

/-- A patch that overrides only `shortName`. -/
def shortNamePatch (n s : String) : Indicator :=
  { Indicator.onlyName n with shortName := some s }

/-- A patch that overrides only `calcParams`. -/
def calcParamsPatch (n : String) (c : List Int) : Indicator :=
  { Indicator.onlyName n with calcParams := some c }

/-- A default instance, as a template factory would construct it. -/
def defInst : IndicatorTemplate :=
  ⟨"", IndicatorSeries.NORMAL, [], 4, [], none, none, false, false, 0, none, 0, 0, 0, 0, []⟩

/-- A calculation semantics in which every capability succeeds. -/
def sem0 : CalcSem := fun _ _ => some [1]

/-- A store with two registered templates and no instances. -/
def st0 : IndicatorStore := ⟨[("N1", defInst), ("N2", defInst)], []⟩

/-- A store with no registered templates and no instances. -/
def stEmpty : IndicatorStore := ⟨[], []⟩

/-- A store whose pane `p` holds one instance named `M`. -/
def stW : IndicatorStore := ⟨[("M", defInst)], [("p", [("M", defInst)])]⟩

/-- A patch carrying only `maxValue`. -/
def patchMax : Indicator := { Indicator.onlyName "X" with maxValue := some (some 5) }

/-- A patch carrying `minValue = 1` and `maxValue = 2`. -/
def patch5 : Indicator :=
  { Indicator.onlyName "X" with minValue := some (some 1), maxValue := some (some 2) }

theorem alGet_alSet_self {α : Type} (m : SMap α) (k : String) (v : α) :
    alGet (alSet m k v) k = some v := by
  induction m with
  | nil => simp [alSet, alGet]
  | cons h t ih =>
    obtain ⟨k', v'⟩ := h
    by_cases hk : k' = k
    · simp [alSet, alGet, hk]
    · simp [alSet, alGet, hk, ih]

theorem alGet_mapVals {α β : Type} (f : α → β) (m : SMap α) (k : String) :
    alGet (mapVals f m) k = (alGet m k).map f := by
  induction m with
  | nil => simp [mapVals, alGet]
  | cons h t ih =>
    obtain ⟨k', v⟩ := h
    by_cases hk : k' = k
    · simp [mapVals, alGet, hk]
    · simp [mapVals, alGet, hk, ih]

theorem calcPane_flags_length (sem : CalcSem) (data : List Int)
    (m : SMap IndicatorTemplate) : (calcPane sem data m).2.length = m.length := by
  induction m with
  | nil => simp [calcPane]
  | cons h t ih => simp [calcPane, ih]

theorem calcPanes_flags_length (sem : CalcSem) (data : List Int)
    (ps : SMap (SMap IndicatorTemplate)) :
    (calcPanes sem data ps).2.length = instanceCount ps := by
  induction ps with
  | nil => simp [calcPanes, instanceCount]
  | cons h t ih =>
    obtain ⟨p, m⟩ := h
    simp [calcPanes, instanceCount, calcPane_flags_length, ih]

theorem overridePane_flags_length (sem : CalcSem) (data : List Int) (ind : Indicator)
    (m : SMap IndicatorTemplate) :
    (overridePane sem data ind m).2.length =
      (match alGet m ind.name with
       | some inst => if (overrideInstance inst ind).2.2 then 1 else 0
       | none => 0) := by
  unfold overridePane
  cases h : alGet m ind.name with
  | none => simp
  | some inst =>
    by_cases hc : (overrideInstance inst ind).2.2
    · simp [hc]
    · simp [hc]

theorem overrideAllPanes_flags_length (sem : CalcSem) (data : List Int) (ind : Indicator)
    (ps : SMap (SMap IndicatorTemplate)) :
    (overrideAllPanes sem data ind ps).2.length = recomputedCount ind ps := by
  induction ps with
  | nil => simp [overrideAllPanes, recomputedCount]
  | cons h t ih =>
    obtain ⟨p, m⟩ := h
    simp [overrideAllPanes, recomputedCount, overridePane_flags_length, ih]

theorem overridePane_get (sem : CalcSem) (data : List Int) (ind : Indicator)
    (m : SMap IndicatorTemplate) (inst : IndicatorTemplate)
    (h : alGet m ind.name = some inst) :
    alGet (overridePane sem data ind m).1 ind.name =
      some (if (overrideInstance inst ind).2.2
            then (calcIndicator sem (overrideInstance inst ind).1 data).1
            else (overrideInstance inst ind).1) := by
  unfold overridePane
  rw [h]
  by_cases hc : (overrideInstance inst ind).2.2
  · simp [hc, alGet_alSet_self]
  · simp [hc, alGet_alSet_self]

theorem overrideAllPanes_get (sem : CalcSem) (data : List Int) (ind : Indicator)
    (ps : SMap (SMap IndicatorTemplate)) (p : String) :
    alGet (overrideAllPanes sem data ind ps).1 p =
      (alGet ps p).map (fun m => (overridePane sem data ind m).1) := by
  induction ps with
  | nil => simp [overrideAllPanes, alGet]
  | cons h t ih =>
    obtain ⟨p', m⟩ := h
    by_cases hp : p' = p
    · simp [overrideAllPanes, alGet, hp]
    · simp [overrideAllPanes, alGet, hp, ih]

theorem updatePrecision_eq (prec : Nat × Nat) (inst : IndicatorTemplate) :
    updatePrecision prec inst =
      { inst with precision :=
          if inst.series = IndicatorSeries.PRICE then prec.1
          else if inst.series = IndicatorSeries.VOLUME then prec.2
          else inst.precision } := by
  obtain ⟨sn, se, cp, pr, pl, mn, mx, so, sf, st, ed, rp, ct, dr, cf, rs⟩ := inst
  cases se <;>
    simp [updatePrecision, setPrecision, apply_ite IndicatorTemplate.series] <;>
    split_ifs <;> simp_all

/-- C1: the spec's stack-accumulation property — after `addInstance(P,
N1, isStack=true)` succeeds, `addInstance(P, N2, isStack=true)` should
leave both N1 and N2 in P. The code violates it: the line-98 guard
compares the optional-chained `has` result against `undefined`, so any
second add to an existing pane is rejected. At the failing input the
first add succeeds, the second returns `false`, N2 is absent and only N1
remains. -/
theorem stack_add_second_instance_rejected :
    (addInstance sem0 st0 "p" (Indicator.onlyName "N1") true []).2 = Except.ok true ∧
    (addInstance sem0 (addInstance sem0 st0 "p" (Indicator.onlyName "N1") true []).1
        "p" (Indicator.onlyName "N2") true []).2 = Except.ok false ∧
    alGet2 (addInstance sem0 (addInstance sem0 st0 "p" (Indicator.onlyName "N1") true []).1
        "p" (Indicator.onlyName "N2") true []).1.instances "p" "N2" = none ∧
    alGet2 (addInstance sem0 (addInstance sem0 st0 "p" (Indicator.onlyName "N1") true []).1
        "p" (Indicator.onlyName "N2") true []).1.instances "p" "N1" ≠ none := by
  refine ⟨rfl, rfl, rfl, by decide⟩

/-- C2: for every pane that currently has an entry in the instance table,
`addInstance` returns `false` and leaves the whole table unchanged,
whatever the requested name — the early-return guard tests pane
existence, not name membership. -/
theorem addInstance_pane_exists_guard (sem : CalcSem) (store : IndicatorStore)
    (paneId : String) (ind : Indicator) (isStack : Bool) (data : List Int)
    (h : (alGet store.instances paneId).isSome = true) :
    addInstance sem store paneId ind isStack data = (store, Except.ok false) := by
  simp [addInstance, h]

theorem addInstance_pane_exists_guard_witness :
    (alGet stW.instances "p").isSome = true ∧
    addInstance sem0 stW "p" (Indicator.onlyName "Q") false [] = (stW, Except.ok false) :=
  ⟨rfl, addInstance_pane_exists_guard sem0 stW "p" (Indicator.onlyName "Q") false [] rfl⟩

/-- C3: the spec says a patch holding only `maxValue` calls the
conditional setter corresponding to `maxValue` and leaves `minValue`
unchanged. The code's line 55 calls `setMinValue(maxValue)`, so at the
failing input the patch writes `minValue` and leaves `maxValue` exactly
as it was. -/
theorem maxValue_patch_writes_minValue :
    (overrideInstance defInst patchMax).1.minValue = some 5 ∧
    (overrideInstance defInst patchMax).1.maxValue = defInst.maxValue ∧
    (overrideInstance defInst patchMax).2 = (true, false) :=
  ⟨rfl, rfl, rfl⟩

/-- C4 counterexample: with no registered template and a previously
absent pane, `addInstance` propagates the error but does not leave the
table exactly as it was — the table afterwards differs from the table
before (an empty pane entry appears). -/
theorem unknownTemplate_table_changed :
    (addInstance sem0 stEmpty "p" (Indicator.onlyName "X") true []).2 = Except.error () ∧
    (addInstance sem0 stEmpty "p" (Indicator.onlyName "X") true []).1.instances
      ≠ stEmpty.instances :=
  ⟨rfl, by decide⟩

/-- C4 amended: when the template is missing and the pane had no entry,
the error propagates and no instance is inserted, but an empty pane entry
is left behind — the new table is exactly the old one with `paneId` bound
to the empty map, because the pane map is installed before the failing
construction. -/
theorem unknownTemplate_leaves_empty_pane (sem : CalcSem) (store : IndicatorStore)
    (paneId : String) (ind : Indicator) (isStack : Bool) (data : List Int)
    (ht : alGet store.templates ind.name = none)
    (hp : alGet store.instances paneId = none) :
    addInstance sem store paneId ind isStack data =
      ({ store with instances := alSet store.instances paneId [] }, Except.error ()) := by
  simp [addInstance, hp, ht]

theorem unknownTemplate_leaves_empty_pane_witness :
    alGet stEmpty.templates "X" = none ∧ alGet stEmpty.instances "p" = none ∧
    addInstance sem0 stEmpty "p" (Indicator.onlyName "X") true [] =
      ({ stEmpty with instances := alSet stEmpty.instances "p" [] }, Except.error ()) :=
  ⟨rfl, rfl,
    unknownTemplate_leaves_empty_pane sem0 stEmpty "p" (Indicator.onlyName "X") true [] rfl rfl⟩

/-- C5: the spec's override idempotence — applying the same patch twice
should report `changed=false` the second time and leave the state as
after the first. The second half holds, but at the failing input (a patch
carrying `minValue = 1` and `maxValue = 2`) the second application
reports `changed=true`: line 55 routes `maxValue` through `setMinValue`,
so `minValue` is toggled 2 → 1 → 2 again on every application. -/
theorem second_application_reports_changed :
    (overrideInstance (overrideInstance defInst patch5).1 patch5).2.1 = true ∧
    (overrideInstance (overrideInstance defInst patch5).1 patch5).1 =
      (overrideInstance defInst patch5).1 :=
  ⟨rfl, by decide⟩

/-- C6: calcParams isolation — on an instance whose `shortName` differs
from the patch value, a shortName-only patch reports `(true, false)` and
`override` schedules no recomputation (empty flag list); a
calcParams-only patch with a differing value reports `(true, true)` and
`override` schedules exactly one recomputation. -/
theorem calcParams_isolation (sem : CalcSem) (data : List Int)
    (tmps : SMap IndicatorTemplate) (p n s : String) (c : List Int)
    (i : IndicatorTemplate) (hs : i.shortName ≠ s) (hc : i.calcParams ≠ c) :
    (overrideInstance i (shortNamePatch n s)).2 = (true, false) ∧
    (override sem (singlePaneStore tmps p n i) (shortNamePatch n s) (some p) data).2 = [] ∧
    (overrideInstance i (calcParamsPatch n c)).2 = (true, true) ∧
    (override sem (singlePaneStore tmps p n i) (calcParamsPatch n c) (some p) data).2.length
      = 1 := by
  refine ⟨?_, ?_, ?_, ?_⟩ <;>
    simp [override, singlePaneStore, overridePane, overrideInstance, shortNamePatch,
      calcParamsPatch, Indicator.onlyName, setShortName, setCalcParams, alGet, hs, hc]

theorem calcParams_isolation_witness :
    defInst.shortName ≠ "y" ∧ defInst.calcParams ≠ [10] ∧
    ((overrideInstance defInst (shortNamePatch "MA" "y")).2 = (true, false) ∧
      (override sem0 (singlePaneStore [] "p" "MA" defInst) (shortNamePatch "MA" "y")
          (some "p") []).2 = [] ∧
      (overrideInstance defInst (calcParamsPatch "MA" [10])).2 = (true, true) ∧
      (override sem0 (singlePaneStore [] "p" "MA" defInst) (calcParamsPatch "MA" [10])
          (some "p") []).2.length = 1) :=
  ⟨by decide, by decide,
    calcParams_isolation sem0 [] [] "p" "MA" "y" [10] defInst (by decide) (by decide)⟩

/-- C7: adding an instance under a name that already exists in the pane
returns `false` and leaves the table — in particular the existing
instance's configuration and result — untouched: a silent no-op, never an
error. -/
theorem addInstance_duplicate_noop (sem : CalcSem) (store : IndicatorStore)
    (paneId : String) (ind : Indicator) (isStack : Bool) (data : List Int)
    (m : SMap IndicatorTemplate) (inst : IndicatorTemplate)
    (hm : alGet store.instances paneId = some m)
    (_hi : alGet m ind.name = some inst) :
    addInstance sem store paneId ind isStack data = (store, Except.ok false) := by
  simp [addInstance, hm]

theorem addInstance_duplicate_noop_witness :
    alGet stW.instances "p" = some [("M", defInst)] ∧
    alGet [("M", defInst)] (Indicator.onlyName "M").name = some defInst ∧
    addInstance sem0 stW "p" (Indicator.onlyName "M") true [] = (stW, Except.ok false) :=
  ⟨rfl, rfl,
    addInstance_duplicate_noop sem0 stW "p" (Indicator.onlyName "M") true []
      [("M", defInst)] defInst rfl rfl⟩

/-- C8: `setSeriesPrecision (price, volume)` maps every instance of every
pane to the same instance with only `precision` replaced — by `price` on
a PRICE-classified instance, by `volume` on a VOLUME-classified one, and
kept as is on any other classification; every other field, including
`result`, is untouched, so no recomputation happens. -/
theorem setSeriesPrecision_targets (store : IndicatorStore) (prec : Nat × Nat)
    (p n : String) :
    alGet2 (setSeriesPrecision store prec).instances p n =
      (alGet2 store.instances p n).map (fun inst =>
        { inst with precision :=
            if inst.series = IndicatorSeries.PRICE then prec.1
            else if inst.series = IndicatorSeries.VOLUME then prec.2
            else inst.precision }) := by
  unfold setSeriesPrecision alGet2
  rw [alGet_mapVals]
  cases alGet store.instances p with
  | none => simp
  | some m =>
    rw [Option.map_some', Option.some_bind]
    rw [alGet_mapVals]
    cases h2 : alGet m n with
    | none => simp [h2]
    | some inst => simp [h2, updatePrecision_eq]

/-- C9: `calcInstance` called without a name ignores the pane id
argument entirely: the call with a pane id equals the call without one,
and it recomputes every instance in every pane (one success flag per
instance of the table). -/
theorem calcInstance_ignores_paneId_without_name (sem : CalcSem)
    (store : IndicatorStore) (p : String) (data : List Int) :
    calcInstance sem store none (some p) data = calcInstance sem store none none data ∧
    (calcInstance sem store none (some p) data).2.length = instanceCount store.instances := by
  refine ⟨rfl, ?_⟩
  simp [calcInstance, calcPanes_flags_length]

/-- C10: `override` without a pane id applies the patch to every instance
matching the patch's name — the table afterwards holds, at every matched
slot, the overridden instance (recomputed exactly when its `calcParams`
changed) — while the returned flag list has one entry only per matched
instance whose `calcParams` changed, so its length is the number of
recomputed instances, not the number matched. -/
theorem override_flags_only_recomputed (sem : CalcSem) (data : List Int)
    (ind : Indicator) (store : IndicatorStore) (p : String)
    (m : SMap IndicatorTemplate) (inst : IndicatorTemplate)
    (h1 : alGet store.instances p = some m) (h2 : alGet m ind.name = some inst) :
    (override sem store ind none data).2.length = recomputedCount ind store.instances ∧
    alGet2 (override sem store ind none data).1.instances p ind.name =
      some (if (overrideInstance inst ind).2.2
            then (calcIndicator sem (overrideInstance inst ind).1 data).1
            else (overrideInstance inst ind).1) := by
  constructor
  · simp [override, overrideAllPanes_flags_length]
  · simp only [override, alGet2]
    rw [overrideAllPanes_get, h1]
    rw [Option.map_some', Option.some_bind]
    exact overridePane_get sem data ind m inst h2

theorem override_flags_only_recomputed_witness :
    alGet stW.instances "p" = some [("M", defInst)] ∧
    alGet [("M", defInst)] (shortNamePatch "M" "zz").name = some defInst ∧
    ((override sem0 stW (shortNamePatch "M" "zz") none []).2.length
        = recomputedCount (shortNamePatch "M" "zz") stW.instances ∧
      alGet2 (override sem0 stW (shortNamePatch "M" "zz") none []).1.instances "p"
          (shortNamePatch "M" "zz").name =
        some (if (overrideInstance defInst (shortNamePatch "M" "zz")).2.2
              then (calcIndicator sem0 (overrideInstance defInst (shortNamePatch "M" "zz")).1 []).1
              else (overrideInstance defInst (shortNamePatch "M" "zz")).1)) :=
  ⟨rfl, rfl,
    override_flags_only_recomputed sem0 [] (shortNamePatch "M" "zz") stW "p"
      [("M", defInst)] defInst rfl rfl⟩
